import Mathlib

/-!
Verification of the file-change analysis and commit-message synthesis pipeline
of the gh-helper repository.

The definitions below are a shallow embedding of the TypeScript sources
(src/lib/git.ts, src/lib/analysis.ts, src/lib/ollama.ts, src/lib/claude.ts).
Strings are modelled as Lean strings; JavaScript string operations that the
source uses (split, includes, startsWith, endsWith, trim, toLowerCase, the
three regex replaces of sanitizeMessage) are implemented character-faithfully
on the underlying character lists.  JavaScript string indices are UTF-16 code
units while Lean counts characters; the sources only index with small
constants and length caps, where the two coincide on the inputs of interest.
External effects (running git, calling the AI backend over HTTP or a CLI
subprocess) are modelled as explicitly passed functions returning
Except String String: an .error result models a thrown/rejected error, an
.ok result models a successful response.
-/

namespace GhHelper

set_option maxRecDepth 200000

/-- The backtick character, written via its code point. -/
def btick : Char := Char.ofNat 96

/-- The three-backtick fence marker as a character list. -/
def fenceChars : List Char := [btick, btick, btick]

/-- JavaScript \s for the code points the sources can meet: space, tab,
line feed, vertical tab, form feed, carriage return, NBSP, and the
Unicode space separators, matching the ECMA-262 WhiteSpace/LineTerminator
sets. -/
def isJsWs (c : Char) : Bool :=
  c = ' ' || c = '\t' || c = '\n' || c = '\x0b' || c = '\x0c' || c = '\r' ||
  c.toNat = 0xa0 || c.toNat = 0x1680 ||
  (0x2000 <= c.toNat && c.toNat <= 0x200a) ||
  c.toNat = 0x2028 || c.toNat = 0x2029 || c.toNat = 0x202f ||
  c.toNat = 0x205f || c.toNat = 0x3000 || c.toNat = 0xfeff

/-- JavaScript String.prototype.trim: drop \s characters from both ends. -/
def jsTrim (s : String) : String :=
  String.mk (((s.toList.dropWhile isJsWs).reverse.dropWhile isJsWs).reverse)

/-- JavaScript String.prototype.split with a single-character separator,
on character lists.  Like JS split, it keeps empty fields and returns one
(empty) field for the empty string. -/
def splitCharList (sep : Char) : List Char → List (List Char)
  | [] => [[]]
  | c :: rest =>
    if c = sep then [] :: splitCharList sep rest
    else
      match splitCharList sep rest with
      | h :: t => (c :: h) :: t
      | [] => [[c]]

/-- JavaScript split with a one-character separator, on strings. -/
def jsSplitChar (sep : Char) (s : String) : List String :=
  (splitCharList sep s.toList).map String.mk

/-- JavaScript String.prototype.startsWith. -/
def jsStartsWith (s pre : String) : Bool :=
  pre.toList.isPrefixOf s.toList

/-- JavaScript String.prototype.endsWith. -/
def jsEndsWith (s suf : String) : Bool :=
  suf.toList.isSuffixOf s.toList

/-- Does sub occur as a contiguous run inside l? -/
def listHasRun (sub : List Char) : List Char → Bool
  | [] => sub.isEmpty
  | c :: rest => sub.isPrefixOf (c :: rest) || listHasRun sub rest

/-- JavaScript String.prototype.includes. -/
def jsContains (s sub : String) : Bool :=
  listHasRun sub.toList s.toList

/-- JavaScript String.prototype.toLowerCase for the ASCII range (the
classifier only compares against ASCII names and extensions). -/
def jsToLower (s : String) : String :=
  String.mk (s.toList.map Char.toLower)

/-- Drop the first n characters of a string. -/
def jsDropChars (s : String) (n : Nat) : String :=
  String.mk (s.toList.drop n)

/-- Take the first n characters of a string (JS substring(0, n)). -/
def jsTakeChars (s : String) (n : Nat) : String :=
  String.mk (s.toList.take n)

/-- Character-count length of a string. -/
def jsLen (s : String) : Nat := s.toList.length

/-- Concatenation of a list of strings. -/
def strJoin : List String → String
  | [] => ""
  | s :: rest => s ++ strJoin rest

/-! ## Data model (src/lib/git.ts, src/lib/analysis.ts) -/

/-- FileChange.status values. -/
inductive FileStatus
  | added | modified | deleted | renamed | copied
deriving DecidableEq, Repr

/-- Interpolation of a FileStatus into a template string, as JS renders the
status string. -/
def statusStr : FileStatus → String
  | .added => "added"
  | .modified => "modified"
  | .deleted => "deleted"
  | .renamed => "renamed"
  | .copied => "copied"

/-- interface FileChange (git.ts). -/
structure FileChange where
  path : String
  status : FileStatus
  oldPath : Option String := none
deriving DecidableEq, Repr

/-- FileCategory.type values. -/
inductive CategoryType
  | code | tooling | documentation | configuration | test
deriving DecidableEq, Repr

/-- Interpolation of a CategoryType into a template string. -/
def typeStr : CategoryType → String
  | .code => "code"
  | .tooling => "tooling"
  | .documentation => "documentation"
  | .configuration => "configuration"
  | .test => "test"

/-- interface FileCategory (git.ts). -/
structure FileCategory where
  type : CategoryType
  needsAnalysis : Bool
  summary : Option String := none
deriving DecidableEq, Repr

/-- FileAnalysis.impact values. -/
inductive Impact
  | major | minor | trivial
deriving DecidableEq, Repr

/-- interface FileAnalysis (analysis.ts). -/
structure FileAnalysis where
  file : FileChange
  category : FileCategory
  summary : String
  impact : Impact
deriving DecidableEq, Repr

/-- interface AnalysisResult (analysis.ts). -/
structure AnalysisResult where
  fileAnalyses : List FileAnalysis
  overallScope : String
  suggestedCommitType : String
deriving DecidableEq, Repr

/-! ## File classifier (git.ts, categorizeFile and getToolingSummary) -/

/-- git.ts line 185: filePath.split('/').pop()?.toLowerCase() || ''. -/
def fileNameOf (filePath : String) : String :=
  jsToLower ((jsSplitChar '/' filePath).getLastD "")

/-- git.ts line 186: fileName.split('.').pop() || ''. -/
def extensionOf (fileName : String) : String :=
  (jsSplitChar '.' fileName).getLastD ""

/-- git.ts lines 189-202: the tooling regex patterns, each as the string
predicate the anchored regex denotes. -/
def toolingPatterns : List (String → Bool) :=
  [ fun s => s == "pnpm-lock.yaml",
    fun s => s == "package-lock.json",
    fun s => s == "yarn.lock",
    fun s => s == ".gitignore",
    fun s => s == "sitemap.xml",
    fun s => s == "robots.txt",
    fun s => s == "manifest.json",
    fun s => jsStartsWith s "bundle.",
    fun s => jsStartsWith s "dist/",
    fun s => jsStartsWith s "build/",
    fun s => jsEndsWith s ".map",
    fun s => jsEndsWith s ".min.js" || jsEndsWith s ".min.css" ]

/-- git.ts lines 204-205: the loop testing each pattern against the
lowercased file name and against the raw path. -/
def toolingCond (fileName filePath : String) : Bool :=
  toolingPatterns.any (fun pat => pat fileName || pat filePath)

/-- git.ts line 215. -/
def configExtensions : List String := ["json", "yaml", "yml", "toml", "ini", "conf", "config"]

/-- git.ts line 216. -/
def configFiles : List String := ["dockerfile", "makefile", ".env", ".env.example"]

/-- git.ts lines 218-219: configuration condition. -/
def configCond (fileName extension : String) : Bool :=
  configExtensions.contains extension ||
  configFiles.any (fun f => jsContains fileName f)

/-- git.ts lines 227-228: documentation condition. -/
def docCond (extension : String) : Bool :=
  ["md", "txt", "rst", "adoc"].contains extension

/-- git.ts lines 236-238: test condition. -/
def testCond (fileName filePath : String) : Bool :=
  jsContains fileName "test" || jsContains fileName "spec" ||
  jsContains filePath "/test/" || jsContains filePath "/tests/" ||
  jsContains filePath "/__tests__/"

/-- git.ts lines 253-260: summaryMap of getToolingSummary, in insertion
order. -/
def toolingSummaryMap : List (String × String) :=
  [ ("pnpm-lock.yaml", "Update package dependencies"),
    ("package-lock.json", "Update package dependencies"),
    ("yarn.lock", "Update package dependencies"),
    ("sitemap.xml", "Regenerate sitemap"),
    ("robots.txt", "Update robots.txt"),
    ("manifest.json", "Update web manifest") ]

/-- git.ts lines 252-277: getToolingSummary. -/
def getToolingSummary (fileName : String) : String :=
  match toolingSummaryMap.find? (fun p => jsContains fileName p.1) with
  | some p => p.2
  | none =>
    if jsContains fileName ".min." then "Update minified assets"
    else if jsContains fileName "bundle" then "Update build bundle"
    else "Update generated files"

/-- git.ts lines 184-250: categorizeFile. -/
def categorizeFile (filePath : String) : FileCategory :=
  let fileName := fileNameOf filePath
  let extension := extensionOf fileName
  if toolingCond fileName filePath then
    { type := .tooling, needsAnalysis := false, summary := some (getToolingSummary fileName) }
  else if configCond fileName extension then
    { type := .configuration, needsAnalysis := true }
  else if docCond extension then
    { type := .documentation, needsAnalysis := true }
  else if testCond fileName filePath then
    { type := .test, needsAnalysis := true }
  else
    { type := .code, needsAnalysis := true }

/-! ## System prompts (src/lib/ollama.ts, SYSTEM_PROMPTS) -/

/-- ollama.ts SYSTEM_PROMPTS.commitMessage. -/
def promptCommitMessage : String :=
  "You are a commit message generator. Generate clear, concise commit messages following conventional commit format.\nFocus on WHAT changed and WHY, not implementation details.\nUse present tense imperative mood (e.g., \"Add\", \"Fix\", \"Update\").\nKeep the first line under 72 characters.\nIf needed, add a blank line and then more detailed explanation."

/-- ollama.ts SYSTEM_PROMPTS.codeAnalysis. -/
def promptCodeAnalysis : String :=
  "You are a code change analyzer. Analyze the provided diff and provide a concise summary focusing on:\n- Business logic changes\n- New features or functionality\n- Bug fixes or improvements\n- Architectural changes\n\nBe specific about what functionality was added, modified, or removed."

/-- ollama.ts SYSTEM_PROMPTS.testAnalysis. -/
def promptTestAnalysis : String :=
  "You are a test code analyzer. Analyze the provided test diff and summarize:\n- What functionality is being tested\n- New test coverage added\n- Test improvements or fixes\n- Testing approach changes\n\nFocus on the testing intent and coverage rather than implementation details."

/-- ollama.ts SYSTEM_PROMPTS.documentationAnalysis. -/
def promptDocumentationAnalysis : String :=
  "You are a documentation analyzer. Analyze the provided documentation diff and summarize:\n- What information was added, updated, or removed\n- Documentation improvements\n- Clarifications or corrections\n- New sections or reorganization\n\nFocus on the content and informational changes."

/-- ollama.ts SYSTEM_PROMPTS.configurationAnalysis. -/
def promptConfigurationAnalysis : String :=
  "You are a configuration file analyzer. Analyze the provided config diff and summarize:\n- What settings or behaviors changed\n- New configuration options added\n- Environment or deployment changes\n- Dependency or build configuration updates\n\nFocus on the functional impact of configuration changes."

/-! ## Per-file analyzer (src/lib/analysis.ts) -/

/-- analysis.ts lines 97-140: createAnalysisPrompt.  Returns the pair of
user prompt and system prompt. -/
def createAnalysisPrompt (file : FileChange) (category : FileCategory) (diff : String) :
    String × String :=
  let truncatedDiff :=
    if jsLen diff > 5000 then jsTakeChars diff 5000 ++ "\n... (diff truncated)" else diff
  let systemPrompt :=
    match category.type with
    | .code => promptCodeAnalysis
    | .test => promptTestAnalysis
    | .documentation => promptDocumentationAnalysis
    | .configuration => promptConfigurationAnalysis
    | .tooling => promptCodeAnalysis
  let prompt :=
    "Analyze this " ++ typeStr category.type ++ " file change:\n\nFile: " ++ file.path ++
    "\nStatus: " ++ statusStr file.status ++ "\n" ++
    (match file.oldPath with
     | some old => "Old path: " ++ old
     | none => "") ++
    "\n\nDiff:\n" ++ truncatedDiff ++
    "\n\nRespond with exactly this format:\nSUMMARY: [Brief description of what changed]\nIMPACT: [major/minor/trivial - based on scope and importance]\n\nGuidelines for IMPACT:\n- major: New features, breaking changes, significant refactoring\n- minor: Bug fixes, small enhancements, documentation updates  \n- trivial: Formatting, comments, minor config tweaks"
  (prompt, systemPrompt)

/-- analysis.ts lines 172-178: createFallbackSummary. -/
def createFallbackSummary (file : FileChange) (category : FileCategory) : String :=
  let action :=
    match file.status with
    | .added => "Add"
    | .deleted => "Remove"
    | .renamed => "Rename"
    | _ => "Update"
  action ++ " " ++ typeStr category.type ++ " file " ++ file.path

/-- analysis.ts line 182: the filtered count of diff lines beginning with
a plus or a minus sign. -/
def changedLineCount (diff : String) : Nat :=
  ((jsSplitChar '\n' diff).filter
    (fun line => jsStartsWith line "+" || jsStartsWith line "-")).length

/-- analysis.ts lines 180-187: estimateImpactFromDiff. -/
def estimateImpactFromDiff (diff : String) : Impact :=
  if changedLineCount diff > 100 then .major
  else if changedLineCount diff > 10 then .minor
  else .trivial

/-- analysis.ts lines 165-170: createFallbackAnalysis. -/
def createFallbackAnalysis (file : FileChange) (category : FileCategory) (diff : String) :
    FileAnalysis :=
  { file := file, category := category,
    summary := createFallbackSummary file category,
    impact := estimateImpactFromDiff diff }

/-- analysis.ts lines 142-163: parseAnalysisResponse.  The source loops over
the response lines updating summary and impact; a SUMMARY line drops the
prefix (the first occurrence of the label, which by the startsWith guard is
at position 0) and trims; an IMPACT line is kept only when the trimmed
lowercased value is one of the three levels. -/
def parseAnalysisResponse (file : FileChange) (category : FileCategory) (response : String) :
    FileAnalysis :=
  let step : String × Impact → String → String × Impact := fun acc line =>
    if jsStartsWith line "SUMMARY:" then
      (jsTrim (jsDropChars line 8), acc.2)
    else if jsStartsWith line "IMPACT:" then
      let impactStr := jsToLower (jsTrim (jsDropChars line 7))
      if impactStr == "major" then (acc.1, .major)
      else if impactStr == "minor" then (acc.1, .minor)
      else if impactStr == "trivial" then (acc.1, .trivial)
      else acc
    else acc
  let parsed := (jsSplitChar '\n' response).foldl step ("", .minor)
  let summary := if parsed.1 == "" then createFallbackSummary file category else parsed.1
  { file := file, category := category, summary := summary, impact := parsed.2 }

/-- analysis.ts lines 72-95: analyzeFileChange.  The backend call is the
passed function; a thrown backend error is its .error case and is caught,
falling back to the heuristic analysis, so the function is total. -/
def analyzeFileChange (file : FileChange) (category : FileCategory) (diff : String)
    (backend : String → Except String String) : FileAnalysis :=
  if jsTrim diff == "" then
    { file := file, category := category,
      summary := statusStr file.status ++ " " ++ file.path, impact := .trivial }
  else
    let pr := createAnalysisPrompt file category diff
    match backend pr.1 with
    | .ok response => parseAnalysisResponse file category response
    | .error _ => createFallbackAnalysis file category diff

/-- analysis.ts lines 27-60: the body of the sequential loop of
analyzeChanges for one file.  The try/catch at lines 47-59 catches a
getFileDiff failure (analyzeFileChange itself never throws, its backend
errors being caught internally at lines 88-94) and pushes the
status/type fallback entry with minor impact. -/
def analyzeOne (diffFetcher : String → Except String String)
    (backend : String → Except String String) (file : FileChange) : FileAnalysis :=
  let category := categorizeFile file.path
  if category.needsAnalysis then
    match diffFetcher file.path with
    | .ok diff => analyzeFileChange file category diff backend
    | .error _ =>
      { file := file, category := category,
        summary := statusStr file.status ++ " " ++ typeStr category.type ++ " file",
        impact := .minor }
  else
    { file := file, category := category,
      summary := (match category.summary with
                  | some s => if s == "" then "File updated" else s
                  | none => "File updated"),
      impact := .trivial }

/-! ## Aggregator (src/lib/analysis.ts) -/

/-- analysis.ts lines 189-215: determineOverallScope. -/
def determineOverallScope (analyses : List FileAnalysis) : String :=
  let codeChanges := analyses.filter (fun a => decide (a.category.type = .code))
  let testChanges := analyses.filter (fun a => decide (a.category.type = .test))
  let docChanges := analyses.filter (fun a => decide (a.category.type = .documentation))
  let configChanges := analyses.filter (fun a => decide (a.category.type = .configuration))
  let toolingChanges := analyses.filter (fun a => decide (a.category.type = .tooling))
  let majorChanges := analyses.filter (fun a => decide (a.impact = .major))
  if majorChanges.length > 0 then
    if codeChanges.length > 3 then "large feature implementation"
    else if codeChanges.length > 1 then "feature implementation"
    else "significant change"
  else if codeChanges.length > 0 then
    if testChanges.length > 0 then "implementation with tests" else "code changes"
  else if testChanges.length > 0 then "test updates"
  else if docChanges.length > 0 then "documentation updates"
  else if configChanges.length > 0 then "configuration changes"
  else if toolingChanges.length > 0 then "tooling updates"
  else "misc changes"

/-- analysis.ts lines 217-241: suggestCommitType. -/
def suggestCommitType (analyses : List FileAnalysis) : String :=
  let codeChanges := analyses.filter (fun a => decide (a.category.type = .code))
  let testOnlyChanges := analyses.filter (fun a => decide (a.category.type = .test))
  let docOnlyChanges := analyses.filter (fun a => decide (a.category.type = .documentation))
  let majorChanges := analyses.filter (fun a => decide (a.impact = .major))
  let newFiles := analyses.filter
    (fun a => decide (a.file.status = .added ∧ a.category.type = .code))
  if newFiles.length > 0 then "feat"
  else if majorChanges.length > 0 then "feat"
  else if codeChanges.length > 0 then "fix"
  else if testOnlyChanges.length > 0 && codeChanges.length == 0 then "test"
  else if docOnlyChanges.length > 0 && codeChanges.length == 0 then "docs"
  else "chore"

/-- analysis.ts lines 20-70: analyzeChanges, the sequential per-file loop
followed by aggregation.  The progress callback of the source only reports
to the UI and is omitted.  Processing one file at a time and appending in
input order, the loop is the map of the per-file body over the input. -/
def analyzeChanges (files : List FileChange)
    (diffFetcher : String → Except String String)
    (backend : String → Except String String) : AnalysisResult :=
  let fileAnalyses := files.map (analyzeOne diffFetcher backend)
  { fileAnalyses := fileAnalyses,
    overallScope := determineOverallScope fileAnalyses,
    suggestedCommitType := suggestCommitType fileAnalyses }

/-! ## Message sanitization (src/lib/claude.ts, sanitizeMessage)

The source applies three global multiline regex replaces and a trim:
  .replace of an opening fence with optional language tag at a line start,
  consuming a following line feed when present;
  .replace of a closing fence immediately before a line end;
  .replace of a whitespace-only stretch around a fence between line
  boundaries (the \s classes of the pattern may span line feeds);
then String.prototype.trim.  Each pass below is the left-to-right scan the
JS regex engine performs for the corresponding pattern, tracking whether
the current position is a line start (position 0 or just after a line
feed). -/

/-- The character class [a-z] of the opening-fence pattern. -/
def isLowerAZ (c : Char) : Bool := 'a' ≤ c && c ≤ 'z'

/-- First replace: fence at a line start, then a maximal (greedy) run of
lowercase letters, then an optional line feed, removed.  When no line
feed follows the language tag, scanning resumes mid-line.  The fuel
argument only bounds the recursion (every step consumes at least one
character, so any fuel above the length of the input is enough and the
wrapper below passes length + 1); out of fuel the rest is returned
unchanged. -/
def stripOpenFence : Nat → Bool → List Char → List Char
  | 0, _, cs => cs
  | _ + 1, _, [] => []
  | fuel + 1, atStart, c :: rest =>
    if atStart && fenceChars.isPrefixOf (c :: rest) then
      match (rest.drop 2).dropWhile isLowerAZ with
      | [] => []
      | c2 :: rest2 =>
        if c2 = '\n' then stripOpenFence fuel true rest2
        else stripOpenFence fuel false (c2 :: rest2)
    else c :: stripOpenFence fuel (c == '\n') rest

/-- Second replace: a fence immediately before a line end (a line feed or
the end of the string), removed; on a miss the scan advances one
character. -/
def stripCloseFence : Nat → List Char → List Char
  | 0, cs => cs
  | _ + 1, [] => []
  | fuel + 1, c :: rest =>
    if fenceChars.isPrefixOf (c :: rest) &&
       (decide (rest.drop 2 = []) || (rest.drop 2).head? == some '\n') then
      stripCloseFence fuel (rest.drop 2)
    else c :: stripCloseFence fuel rest

/-- Match attempt of the third pattern at a line-start position: greedy
whitespace, a fence, greedy whitespace, then a line end.  The trailing
line-end anchor backtracks to the last line feed inside the second
whitespace run when the run does not reach the end of the string.
Returns the number of characters the match consumes, or none. -/
def tryFenceLineMatch (cs : List Char) : Option Nat :=
  let ws := cs.takeWhile isJsWs
  let rest := cs.dropWhile isJsWs
  if fenceChars.isPrefixOf rest then
    let ws2 := (rest.drop 3).takeWhile isJsWs
    let rest3 := (rest.drop 3).dropWhile isJsWs
    if rest3 = [] then some cs.length
    else if ws2.contains '\n' then
      some (ws.length + 3 + (ws2.length - 1 -
        (ws2.reverse.takeWhile (fun c => decide (c ≠ '\n'))).length))
    else none
  else none

/-- Third replace: scan for matches of the fence-line pattern at line
starts, removing each match; after a removal the line-start flag is
whether the character just before the new position is a line feed.  A
successful match consumes at least the three fence characters, so here
too any fuel above the input length is enough. -/
def scanR3 : Nat → Bool → List Char → List Char
  | 0, _, cs => cs
  | _ + 1, _, [] => []
  | fuel + 1, atStart, c :: rest =>
    if atStart then
      match tryFenceLineMatch (c :: rest) with
      | some n =>
        scanR3 fuel (((c :: rest).take n).getLast? == some '\n') ((c :: rest).drop n)
      | none => c :: scanR3 fuel (c == '\n') rest
    else c :: scanR3 fuel (c == '\n') rest

/-- claude.ts lines 239-245: sanitizeMessage. -/
def sanitizeMessage (message : String) : String :=
  let l1 := stripOpenFence (message.toList.length + 1) true message.toList
  let l2 := stripCloseFence (l1.length + 1) l1
  jsTrim (String.mk (scanR3 (l2.length + 1) true l2))

/-! ## Context rendering and synthesis (src/lib/ollama.ts, src/lib/claude.ts) -/

/-- ollama.ts lines 244-285 (the identical function also appears at
claude.ts lines 95-136): buildAnalysisContext.  The forEach loops that
append bullet lines are folds over the filtered groups. -/
def buildAnalysisContext (analyses : List FileAnalysis)
    (overallScope suggestedCommitType : String) : String :=
  let context := "Analysis Summary:\n- Overall scope: " ++ overallScope ++
    "\n- Suggested type: " ++ suggestedCommitType ++
    "\n- Total files changed: " ++ toString analyses.length ++ "\n\nFile Changes:\n"
  let majorChanges := analyses.filter (fun a => decide (a.impact = .major))
  let minorChanges := analyses.filter (fun a => decide (a.impact = .minor))
  let trivialChanges := analyses.filter (fun a => decide (a.impact = .trivial))
  let context :=
    if majorChanges.length > 0 then
      majorChanges.foldl
        (fun ctx a => ctx ++ ("- " ++ a.file.path ++ " (" ++ statusStr a.file.status ++
          "): " ++ a.summary ++ "\n"))
        (context ++ "\nMajor Changes:\n")
    else context
  let context :=
    if minorChanges.length > 0 then
      minorChanges.foldl
        (fun ctx a => ctx ++ ("- " ++ a.file.path ++ " (" ++ statusStr a.file.status ++
          "): " ++ a.summary ++ "\n"))
        (context ++ "\nMinor Changes:\n")
    else context
  let context :=
    if trivialChanges.length > 0 && trivialChanges.length ≤ 5 then
      trivialChanges.foldl
        (fun ctx a => ctx ++ ("- " ++ a.file.path ++ ": " ++ a.summary ++ "\n"))
        (context ++ "\nTrivial Changes:\n")
    else if trivialChanges.length > 5 then
      context ++ "\nTrivial Changes: " ++ toString trivialChanges.length ++
        " files (tooling, generated files, etc.)\n"
    else context
  context

/-- ollama.ts lines 27-74: the response handling of callOllama.  The
network transfer is the passed backend function; its .ok value is the
response field of the JSON reply. -/
def callOllama (prompt : String) (backend : String → Except String String) :
    Except String String :=
  match backend prompt with
  | .error e => .error e
  | .ok response =>
    if jsTrim response == "" then .error "Empty response from Ollama"
    else .ok (jsTrim response)

/-- ollama.ts lines 203-242: generateCommitMessageFromAnalysis.  The
final-synthesis path of the local-inference backend; its catch block only
rewords connection errors, so errors pass through unchanged here.  Note
the returned message is the trimmed backend response with no further
processing. -/
def ollamaGenerateFromAnalysis (result : AnalysisResult)
    (backend : String → Except String String) : Except String String :=
  let context := buildAnalysisContext result.fileAnalyses result.overallScope
    result.suggestedCommitType
  let prompt := "Based on the analysis of changed files, generate a clear, concise commit message.\n\n"
    ++ context ++
    "\n\nGenerate a commit message that:\n1. Uses conventional commit format: " ++
    result.suggestedCommitType ++
    "(scope): description\n2. Focuses on the primary change and business value\n3. Keeps the first line under 72 characters\n4. Uses present tense imperative mood\n5. If there are multiple significant changes, add a blank line and bullet points for details\n\nConsider the overall scope: "
    ++ result.overallScope ++ "\n\nReturn only the commit message, no other text."
  callOllama prompt backend

/-- claude.ts lines 138-195: the output handling of callClaude.  The CLI
subprocess is the passed function; its .ok value is the captured stdout.
A successful reply is trimmed and passed through sanitizeMessage. -/
def callClaude (prompt : String) (cli : String → Except String String) :
    Except String String :=
  match cli prompt with
  | .error e => .error e
  | .ok stdout =>
    if jsTrim stdout == "" then .error "No commit message generated"
    else .ok (sanitizeMessage (jsTrim stdout))

/-- claude.ts lines 46-93: generateCommitMessageFromAnalysis, the
final-synthesis path of the CLI backend; its catch block only rewords
error messages. -/
def claudeGenerateFromAnalysis (result : AnalysisResult)
    (cli : String → Except String String) : Except String String :=
  let context := buildAnalysisContext result.fileAnalyses result.overallScope
    result.suggestedCommitType
  let prompt := "You are a commit message generator. Based on the analysis of changed files, generate a clear, concise commit message.\n\n"
    ++ context ++
    "\n\nGenerate a commit message that:\n1. Uses conventional commit format: " ++
    result.suggestedCommitType ++
    "(scope): description\n2. Focuses on the primary change and business value\n3. Keeps the first line under 72 characters\n4. Uses present tense imperative mood\n5. If there are multiple significant changes, add a blank line and bullet points for details\n\nConsider the overall scope: "
    ++ result.overallScope ++ "\n\nReturn only the commit message, no other text."
  callClaude prompt cli

/-! ## Specification-side rendering (for the context-block refinement) -/

/-- The context block as the (amended) specification sentence describes it:
a summary header, then the analyses grouped by impact major, minor,
trivial; major and minor entries as bullet lines path (status): summary,
trivial entries as bullet lines path: summary, and a single count line
instead of the trivial list when more than 5 analyses are trivial.
Stated independently of buildAnalysisContext to compare the two. -/
def contextRenderingSpec (analyses : List FileAnalysis)
    (overallScope suggestedCommitType : String) : String :=
  let majorChanges := analyses.filter (fun a => decide (a.impact = .major))
  let minorChanges := analyses.filter (fun a => decide (a.impact = .minor))
  let trivialChanges := analyses.filter (fun a => decide (a.impact = .trivial))
  "Analysis Summary:\n- Overall scope: " ++ overallScope ++
    "\n- Suggested type: " ++ suggestedCommitType ++
    "\n- Total files changed: " ++ toString analyses.length ++ "\n\nFile Changes:\n" ++
  (if majorChanges.length > 0 then
    "\nMajor Changes:\n" ++ strJoin (majorChanges.map (fun a =>
      "- " ++ a.file.path ++ " (" ++ statusStr a.file.status ++ "): " ++ a.summary ++ "\n"))
   else "") ++
  (if minorChanges.length > 0 then
    "\nMinor Changes:\n" ++ strJoin (minorChanges.map (fun a =>
      "- " ++ a.file.path ++ " (" ++ statusStr a.file.status ++ "): " ++ a.summary ++ "\n"))
   else "") ++
  (if trivialChanges.length > 0 && trivialChanges.length ≤ 5 then
    "\nTrivial Changes:\n" ++ strJoin (trivialChanges.map (fun a =>
      "- " ++ a.file.path ++ ": " ++ a.summary ++ "\n"))
   else if trivialChanges.length > 5 then
    "\nTrivial Changes: " ++ toString trivialChanges.length ++
      " files (tooling, generated files, etc.)\n"
   else "")

/-! ## Concrete fixtures used by the claim theorems below -/

/-- A one-file staging area whose diff retrieval fails. -/
def c3File : FileChange := { path := "src/app.ts", status := .modified }

/-- A backend that would succeed if it were reached. -/
def c3Backend : String → Except String String :=
  fun _ => .ok "SUMMARY: rewrote the app\nIMPACT: major"

/-- An added code file analysis. -/
def exAddedCode : FileAnalysis :=
  { file := { path := "src/new.ts", status := .added },
    category := { type := .code, needsAnalysis := true },
    summary := "new module", impact := .trivial }

/-- A major documentation analysis, present to show the commit type does
not depend on the other analyses. -/
def exDocMajor : FileAnalysis :=
  { file := { path := "README.md", status := .modified },
    category := { type := .documentation, needsAnalysis := true },
    summary := "rewrote docs", impact := .major }

/-- A diff of 150 added lines. -/
def diff150 : String := strJoin (List.replicate 150 "+line\n")

/-- A diff of 15 added/removed lines. -/
def diff15 : String := strJoin (List.replicate 8 "+new\n" ++ List.replicate 7 "-old\n")

/-- A diff of 3 added/removed lines. -/
def diff3 : String := "+a\n-b\n+c"

/-- A single major-impact code analysis. -/
def exCodeMajor : FileAnalysis :=
  { file := { path := "src/core.ts", status := .modified },
    category := { type := .code, needsAnalysis := true },
    summary := "rework", impact := .major }

/-- A trivial-impact analysis of an added file, for the bullet-format
counterexample. -/
def c9Triv : FileAnalysis :=
  { file := { path := "a.txt", status := .added },
    category := { type := .documentation, needsAnalysis := true },
    summary := "cleanup", impact := .trivial }

/-! ## Helper lemmas -/

/-- Rebuilding a string from its character list gives it back. -/
theorem mk_toList (s : String) : String.mk s.toList = s := rfl

/-- A left fold appending rendered entries equals the seed followed by the
joined rendered list. -/
theorem foldl_append_strJoin {α : Type} (f : α → String) (l : List α) (init : String) :
    l.foldl (fun acc a => acc ++ f a) init = init ++ strJoin (l.map f) := by
  induction l generalizing init with
  | nil => simp [strJoin]
  | cons a l ih =>
    simp only [List.foldl_cons, List.map_cons, strJoin, ih]
    rw [String.append_assoc]

/-- The .file field of a parsed analysis is the input file. -/
theorem parseAnalysisResponse_file (file : FileChange) (category : FileCategory)
    (response : String) : (parseAnalysisResponse file category response).file = file := rfl

/-- The .file field of analyzeFileChange is the input file. -/
theorem analyzeFileChange_file (file : FileChange) (category : FileCategory) (diff : String)
    (backend : String → Except String String) :
    (analyzeFileChange file category diff backend).file = file := by
  unfold analyzeFileChange
  split
  · rfl
  · dsimp only
    split
    · exact parseAnalysisResponse_file _ _ _
    · rfl

/-- The .file field of the per-file loop body is the input file. -/
theorem analyzeOne_file (dF b : String → Except String String) (f : FileChange) :
    (analyzeOne dF b f).file = f := by
  unfold analyzeOne
  dsimp only
  split
  · split
    · exact analyzeFileChange_file _ _ _ _
    · rfl
  · rfl

/-! ## Claim C2 -/

/-- C2: analyzeChanges returns exactly one FileAnalysis per input
FileChange, carrying that file, in input order (so exactly N analyses for
N files).  The statement quantifies over every diff fetcher and every
backend, including ones that fail on every call, and analyzeChanges is a
total function of them: no error escapes the analyzer. -/
theorem analyzeChanges_one_analysis_per_file (files : List FileChange)
    (diffFetcher backend : String → Except String String) :
    (analyzeChanges files diffFetcher backend).fileAnalyses.map (fun a => a.file) = files ∧
    (analyzeChanges files diffFetcher backend).fileAnalyses.length = files.length := by
  have hmap : (analyzeChanges files diffFetcher backend).fileAnalyses.map (fun a => a.file)
      = files := by
    unfold analyzeChanges
    dsimp only
    rw [List.map_map]
    calc files.map ((fun a => a.file) ∘ analyzeOne diffFetcher backend)
        = files.map id :=
          List.map_congr_left (fun f _ => analyzeOne_file diffFetcher backend f)
      _ = files := List.map_id files
  refine ⟨hmap, ?_⟩
  have := congrArg List.length hmap
  simpa using this

/-! ## Claim C3 -/



/-- C3 counterexample: diff retrieval failure is not fatal and is not
propagated.  With a fetcher that fails on every file, analyzeChanges
still completes and produces a per-file fallback analysis (status/type
summary, minor impact) for the affected file, contradicting the claim
that the error is propagated with no per-file fallback. -/
theorem diff_failure_not_fatal_cex :
    (analyzeChanges [c3File] (fun _ => .error "Failed to get diff for src/app.ts")
        c3Backend).fileAnalyses =
      [{ file := c3File, category := { type := .code, needsAnalysis := true },
         summary := "modified code file", impact := .minor }] ∧
    (analyzeChanges [c3File] (fun _ => .error "Failed to get diff for src/app.ts")
        c3Backend).overallScope = "code changes" := by decide

/-- C3 (amended): when diff retrieval fails for a file that needs
analysis, the failure is caught inside the per-file loop: the run
continues and that file yields a fallback analysis whose summary is
"(status) (category type) file" and whose impact is minor; no error is
propagated to the caller (the pipeline is a total function). -/
theorem diff_failure_per_file_fallback (dF b : String → Except String String)
    (f : FileChange) (e : String)
    (hna : (categorizeFile f.path).needsAnalysis = true)
    (hdf : dF f.path = .error e) :
    analyzeOne dF b f =
      { file := f, category := categorizeFile f.path,
        summary := statusStr f.status ++ " " ++ typeStr (categorizeFile f.path).type ++ " file",
        impact := .minor } := by
  unfold analyzeOne
  simp [hna, hdf]

/-- C3 witness: the amended theorem applied at a concrete file and a
concrete failing fetcher. -/
theorem diff_failure_per_file_fallback_witness :
    analyzeOne (fun _ => .error "boom") c3Backend c3File =
      { file := c3File, category := categorizeFile c3File.path,
        summary := statusStr c3File.status ++ " " ++
          typeStr (categorizeFile c3File.path).type ++ " file",
        impact := .minor } :=
  diff_failure_per_file_fallback (fun _ => .error "boom") c3Backend c3File "boom"
    (by decide) rfl

/-! ## Claim C7 -/

/-- C7: if any analysis in the list is an added file categorized as code,
the suggested commit type is feat, whatever the other analyses are. -/
theorem suggestCommitType_added_code_feat (analyses : List FileAnalysis)
    (h : ∃ a ∈ analyses, a.file.status = .added ∧ a.category.type = .code) :
    suggestCommitType analyses = "feat" := by
  obtain ⟨a, ha, h1, h2⟩ := h
  have hmem : a ∈ analyses.filter
      (fun a => decide (a.file.status = .added ∧ a.category.type = .code)) :=
    List.mem_filter.mpr ⟨ha, by simp [h1, h2]⟩
  have hpos := List.length_pos_of_mem hmem
  unfold suggestCommitType
  dsimp only
  rw [if_pos hpos]



/-- C7 witness: the theorem applied to a concrete list containing an
added code file next to a major documentation change. -/
theorem suggestCommitType_added_code_feat_witness :
    suggestCommitType [exDocMajor, exAddedCode] = "feat" :=
  suggestCommitType_added_code_feat [exDocMajor, exAddedCode]
    ⟨exAddedCode, by decide, by decide, by decide⟩

/-! ## Claim C8 -/

/-- C8: the heuristic impact estimate counts the diff lines beginning
with a plus or minus sign and maps a count above 100 to major, a count
above 10 (up to 100) to minor, and any other count to trivial. -/
theorem estimateImpact_thresholds (diff : String) :
    (100 < changedLineCount diff → estimateImpactFromDiff diff = .major) ∧
    (10 < changedLineCount diff → changedLineCount diff ≤ 100 →
      estimateImpactFromDiff diff = .minor) ∧
    (changedLineCount diff ≤ 10 → estimateImpactFromDiff diff = .trivial) := by
  unfold estimateImpactFromDiff
  refine ⟨fun h => ?_, fun h1 h2 => ?_, fun h => ?_⟩
  · rw [if_pos (by omega)]
  · rw [if_neg (by omega), if_pos (by omega)]
  · rw [if_neg (by omega), if_neg (by omega)]




/-- C8 witness: the thresholds theorem applied to concrete diffs with
150, 15 and 3 added/removed lines. -/
theorem estimateImpact_thresholds_witness :
    estimateImpactFromDiff diff150 = .major ∧
    estimateImpactFromDiff diff15 = .minor ∧
    estimateImpactFromDiff diff3 = .trivial :=
  ⟨(estimateImpact_thresholds diff150).1 (by decide),
   (estimateImpact_thresholds diff15).2.1 (by decide) (by decide),
   (estimateImpact_thresholds diff3).2.2 (by decide)⟩

/-! ## Claim C1 -/


/-- C1 counterexample: a list with a major impact and exactly one
code-category analysis.  The claim says the scope should be
"feature implementation" for 1 to 3 code analyses, but the code requires
strictly more than one, so a single code analysis gives
"significant change". -/
theorem overallScope_one_code_cex :
    exCodeMajor.impact = Impact.major ∧
    ([exCodeMajor].filter (fun a => decide (a.category.type = CategoryType.code))).length = 1 ∧
    determineOverallScope [exCodeMajor] = "significant change" ∧
    ("significant change" : String) ≠ "feature implementation" := by decide

/-- C1 (amended): when some analysis has major impact, the overall scope
is "large feature implementation" for more than 3 code-category
analyses, "feature implementation" for exactly 2 or 3, and
"significant change" for 0 or 1. -/
theorem overallScope_with_major (analyses : List FileAnalysis)
    (h : ∃ a ∈ analyses, a.impact = .major) :
    determineOverallScope analyses =
      (if 3 < (analyses.filter (fun a => decide (a.category.type = .code))).length then
        "large feature implementation"
      else if 1 < (analyses.filter (fun a => decide (a.category.type = .code))).length then
        "feature implementation"
      else "significant change") := by
  obtain ⟨a, ha, hi⟩ := h
  have hmem : a ∈ analyses.filter (fun a => decide (a.impact = .major)) :=
    List.mem_filter.mpr ⟨ha, by simp [hi]⟩
  have hpos := List.length_pos_of_mem hmem
  unfold determineOverallScope
  dsimp only
  rw [if_pos hpos]

/-- C1 witness: the amended theorem applied to a list with one major
analysis and three code analyses, giving "feature implementation"; the
counting hypotheses are discharged by evaluation.  (The list has three
code entries, of which one is major.) -/
theorem overallScope_with_major_witness :
    determineOverallScope [exCodeMajor,
      { file := { path := "src/b.ts", status := .modified },
        category := { type := .code, needsAnalysis := true },
        summary := "tweak", impact := .minor },
      { file := { path := "src/c.ts", status := .modified },
        category := { type := .code, needsAnalysis := true },
        summary := "rename", impact := .trivial }]
      = "feature implementation" := by
  rw [overallScope_with_major _ ⟨exCodeMajor, by decide, by decide⟩]
  decide

/-! ## Claim C4 -/

/-- C4: categorizeFile is total by construction (a Lean function on all
paths); for every path it yields needsAnalysis = false exactly when the
category is tooling; and any path whose (lowercased) final path segment
is one of the three lockfile names is tooling, skips analysis, and
carries the non-empty summary "Update package dependencies". -/
theorem categorizeFile_tooling_iff_lockfiles (p : String) :
    ((categorizeFile p).needsAnalysis = false ↔ (categorizeFile p).type = .tooling) ∧
    (fileNameOf p = "pnpm-lock.yaml" ∨ fileNameOf p = "package-lock.json" ∨
        fileNameOf p = "yarn.lock" →
      categorizeFile p =
        { type := .tooling, needsAnalysis := false,
          summary := some "Update package dependencies" } ∧
      ("Update package dependencies" : String) ≠ "") := by
  constructor
  · unfold categorizeFile
    dsimp only
    split_ifs <;> simp
  · intro h
    have htool : toolingCond (fileNameOf p) p = true := by
      unfold toolingCond toolingPatterns
      rcases h with h | h | h <;> rw [h] <;> simp
    have hsum : getToolingSummary (fileNameOf p) = "Update package dependencies" := by
      rcases h with h | h | h <;> rw [h] <;> decide
    refine ⟨?_, by decide⟩
    unfold categorizeFile
    dsimp only
    rw [if_pos htool, hsum]

/-- C4 witness: the lockfile part applied at a nested lockfile path. -/
theorem categorizeFile_tooling_iff_lockfiles_witness :
    categorizeFile "packages/app/pnpm-lock.yaml" =
      { type := .tooling, needsAnalysis := false,
        summary := some "Update package dependencies" } :=
  ((categorizeFile_tooling_iff_lockfiles "packages/app/pnpm-lock.yaml").2
    (Or.inl (by decide))).1

/-! ## Claim C5 -/

/-- C5: the classifier resolves the category rules in the fixed order
tooling, configuration, documentation, test, code, first match winning;
and "config.test.json" satisfies both the configuration rule and the
test rule yet resolves to configuration, because the configuration rule
is checked first. -/
theorem categorizeFile_precedence :
    (∀ p : String, toolingCond (fileNameOf p) p = true →
      (categorizeFile p).type = .tooling) ∧
    (∀ p : String, toolingCond (fileNameOf p) p = false →
      configCond (fileNameOf p) (extensionOf (fileNameOf p)) = true →
      (categorizeFile p).type = .configuration) ∧
    (∀ p : String, toolingCond (fileNameOf p) p = false →
      configCond (fileNameOf p) (extensionOf (fileNameOf p)) = false →
      docCond (extensionOf (fileNameOf p)) = true →
      (categorizeFile p).type = .documentation) ∧
    (∀ p : String, toolingCond (fileNameOf p) p = false →
      configCond (fileNameOf p) (extensionOf (fileNameOf p)) = false →
      docCond (extensionOf (fileNameOf p)) = false →
      testCond (fileNameOf p) p = true →
      (categorizeFile p).type = .test) ∧
    (∀ p : String, toolingCond (fileNameOf p) p = false →
      configCond (fileNameOf p) (extensionOf (fileNameOf p)) = false →
      docCond (extensionOf (fileNameOf p)) = false →
      testCond (fileNameOf p) p = false →
      (categorizeFile p).type = .code) ∧
    configCond (fileNameOf "config.test.json") (extensionOf (fileNameOf "config.test.json"))
      = true ∧
    testCond (fileNameOf "config.test.json") "config.test.json" = true ∧
    categorizeFile "config.test.json" = { type := .configuration, needsAnalysis := true } := by
  refine ⟨?_, ?_, ?_, ?_, ?_, by decide, by decide, by decide⟩ <;>
    (intro p
     unfold categorizeFile
     dsimp only
     intros) <;>
    simp_all

/-- C5 witness: the precedence rules applied at concrete paths: a
lockfile resolves to tooling, a json config to configuration, and a
plain source file to code. -/
theorem categorizeFile_precedence_witness :
    (categorizeFile "yarn.lock").type = .tooling ∧
    (categorizeFile "tsconfig.json").type = .configuration ∧
    (categorizeFile "src/main.ts").type = .code :=
  ⟨categorizeFile_precedence.1 "yarn.lock" (by decide),
   categorizeFile_precedence.2.1 "tsconfig.json" (by decide) (by decide),
   categorizeFile_precedence.2.2.2.2.1 "src/main.ts" (by decide) (by decide) (by decide)
     (by decide)⟩

/-! ## Claim C9 -/


/-- C9 counterexample: trivial-impact entries are not rendered in the
claimed "path (status): summary" bullet form; their bullet omits the
status.  The rendered context for one trivial analysis contains the
bullet "- a.txt: cleanup" and does not contain "- a.txt (added):
cleanup". -/
theorem context_trivial_bullet_cex :
    jsContains (buildAnalysisContext [c9Triv] "documentation updates" "docs")
      "- a.txt (added): cleanup" = false ∧
    jsContains (buildAnalysisContext [c9Triv] "documentation updates" "docs")
      "- a.txt: cleanup" = true := by decide

/-- C9 (amended): the rendered context block groups analyses by impact in
the order major, minor, trivial; major and minor entries are bullet
lines "path (status): summary", trivial entries are bullet lines
"path: summary" without the status, and when more than 5 analyses are
trivial the trivial list is replaced by a single line giving only their
count.  Stated as equality with contextRenderingSpec, the rendering the
amended sentence describes. -/
theorem buildAnalysisContext_eq_spec (analyses : List FileAnalysis) (os ty : String) :
    buildAnalysisContext analyses os ty = contextRenderingSpec analyses os ty := by
  unfold buildAnalysisContext contextRenderingSpec
  dsimp only
  split_ifs <;>
    (simp [foldl_append_strJoin, String.append_assoc, String.append_empty]
     try rfl)

/-! ## Claim C10 -/

/-- A triple-character prefix implies the single-character prefix. -/
theorem isPrefixOf_three_one (a : Char) (cs : List Char)
    (h : [a, a, a].isPrefixOf cs = true) : [a].isPrefixOf cs = true := by
  match cs with
  | [] => simp [List.isPrefixOf] at h
  | b :: rest =>
    simp [List.isPrefixOf] at h ⊢
    exact h.1

/-- C10: the changed-line count of the impact heuristic counts every line
beginning with a plus or minus sign, including the +++ and --- file
header lines of a unified diff; hence any diff whose line decomposition
contains a ----header line and a +++-header line counts at least 2. -/
theorem changedLineCount_counts_headers :
    (∀ l : String, jsStartsWith l "+++" = true →
      (jsStartsWith l "+" || jsStartsWith l "-") = true) ∧
    (∀ l : String, jsStartsWith l "---" = true →
      (jsStartsWith l "+" || jsStartsWith l "-") = true) ∧
    (∀ (d : String) (pre mid post : List String) (l1 l2 : String),
      jsSplitChar '\n' d = pre ++ l1 :: mid ++ l2 :: post →
      jsStartsWith l1 "---" = true → jsStartsWith l2 "+++" = true →
      2 ≤ changedLineCount d) := by
  have h3 : ∀ (l : String) (c : Char), jsStartsWith l (String.mk [c, c, c]) = true →
      jsStartsWith l (String.mk [c]) = true := by
    intro l c h
    unfold jsStartsWith at h ⊢
    exact isPrefixOf_three_one c l.toList h
  refine ⟨fun l h => ?_, fun l h => ?_, fun d pre mid post l1 l2 hsplit h1 h2 => ?_⟩
  · have := h3 l '+' h
    simp [this]
  · have := h3 l '-' h
    simp [this]
  · unfold changedLineCount
    rw [hsplit]
    have p1 : (jsStartsWith l1 "+" || jsStartsWith l1 "-") = true := by
      have := h3 l1 '-' h1
      simp [this]
    have p2 : (jsStartsWith l2 "+" || jsStartsWith l2 "-") = true := by
      have := h3 l2 '+' h2
      simp [this]
    simp [List.filter_append, List.filter_cons, p1, p2]
    omega

/-- C10 witness: the header-count theorem applied to a concrete unified
diff; its two header lines alone bring the count to 2, and with the one
changed line the count is 3, keeping the diff at trivial impact. -/
theorem changedLineCount_counts_headers_witness :
    2 ≤ changedLineCount "--- a/f\n+++ b/f\n@@ -1 +1 @@\n+x" ∧
    changedLineCount "--- a/f\n+++ b/f\n@@ -1 +1 @@\n+x" = 3 := by
  refine ⟨changedLineCount_counts_headers.2.2 "--- a/f\n+++ b/f\n@@ -1 +1 @@\n+x"
    [] [] ["@@ -1 +1 @@", "+x"] "--- a/f" "+++ b/f" ?_ (by decide) (by decide), by decide⟩
  decide

/-! ## Claim C6 -/

/-- If a run is absent from a list it is absent from its tail. -/
theorem listHasRun_tail {sub : List Char} {c : Char} {rest : List Char}
    (h : listHasRun sub (c :: rest) = false) : listHasRun sub rest = false := by
  unfold listHasRun at h
  exact (Bool.or_eq_false_iff.mp h).2

/-- If a run is absent from a list it is not a prefix of it. -/
theorem hasRun_isPrefixOf {sub cs : List Char}
    (h : listHasRun sub cs = false) : sub.isPrefixOf cs = false := by
  cases cs with
  | nil =>
    unfold listHasRun at h
    cases sub with
    | nil => simp at h
    | cons a as => rfl
  | cons c rest =>
    unfold listHasRun at h
    exact (Bool.or_eq_false_iff.mp h).1

/-- Run absence survives dropWhile. -/
theorem hasRun_dropWhile {sub : List Char} (p : Char → Bool) (cs : List Char)
    (h : listHasRun sub cs = false) : listHasRun sub (cs.dropWhile p) = false := by
  induction cs with
  | nil => simpa using h
  | cons c rest ih =>
    rw [List.dropWhile_cons]
    split
    · exact ih (listHasRun_tail h)
    · exact h

/-- On fence-free input the first sanitizer pass is the identity. -/
theorem stripOpenFence_id (fuel : Nat) (atStart : Bool) (cs : List Char)
    (h : listHasRun fenceChars cs = false) : stripOpenFence fuel atStart cs = cs := by
  induction fuel generalizing atStart cs with
  | zero => rfl
  | succ fuel ih =>
    cases cs with
    | nil => rfl
    | cons c rest =>
      unfold stripOpenFence
      rw [hasRun_isPrefixOf h]
      simp only [Bool.and_false, Bool.false_eq_true, if_false, List.cons.injEq, true_and]
      exact ih (c == '\n') rest (listHasRun_tail h)

/-- On fence-free input the second sanitizer pass is the identity. -/
theorem stripCloseFence_id (fuel : Nat) (cs : List Char)
    (h : listHasRun fenceChars cs = false) : stripCloseFence fuel cs = cs := by
  induction fuel generalizing cs with
  | zero => rfl
  | succ fuel ih =>
    cases cs with
    | nil => rfl
    | cons c rest =>
      unfold stripCloseFence
      rw [hasRun_isPrefixOf h]
      simp only [Bool.false_and, Bool.false_eq_true, if_false, List.cons.injEq, true_and]
      exact ih rest (listHasRun_tail h)

/-- On fence-free input the third pattern never matches. -/
theorem tryFenceLineMatch_none (cs : List Char)
    (h : listHasRun fenceChars cs = false) : tryFenceLineMatch cs = none := by
  unfold tryFenceLineMatch
  dsimp only
  rw [hasRun_isPrefixOf (hasRun_dropWhile isJsWs cs h)]
  simp

/-- On fence-free input the third sanitizer pass is the identity. -/
theorem scanR3_id (fuel : Nat) (atStart : Bool) (cs : List Char)
    (h : listHasRun fenceChars cs = false) : scanR3 fuel atStart cs = cs := by
  induction fuel generalizing atStart cs with
  | zero => rfl
  | succ fuel ih =>
    cases cs with
    | nil => rfl
    | cons c rest =>
      have hrest := ih (c == '\n') rest (listHasRun_tail h)
      have hnone := tryFenceLineMatch_none (c :: rest) h
      cases atStart with
      | false =>
        show c :: scanR3 fuel (c == '\n') rest = c :: rest
        rw [hrest]
      | true =>
        show (match tryFenceLineMatch (c :: rest) with
          | some n =>
            scanR3 fuel (((c :: rest).take n).getLast? == some '\n') ((c :: rest).drop n)
          | none => c :: scanR3 fuel (c == '\n') rest) = c :: rest
        rw [hnone, hrest]

/-- A fence-free message is only trimmed by sanitizeMessage. -/
theorem sanitize_fence_free (s : String)
    (h : listHasRun fenceChars s.toList = false) : sanitizeMessage s = jsTrim s := by
  unfold sanitizeMessage
  dsimp only
  rw [stripOpenFence_id _ _ _ h, stripCloseFence_id _ _ h, scanR3_id _ _ _ h, mk_toList]

/-- C6 (amended): sanitization is applied to backend responses in the
CLI synthesis path only: callClaude returns the sanitized trimmed
stdout of a successful call.  sanitizeMessage strips a fenced wrapper,
mapping the fenced commit message to its bare text, leaves the inline
backtick example unchanged, and more generally returns any message with
no three-backtick run merely trimmed.  (The local-inference synthesis
path returns the trimmed response unsanitized; see the
counterexample.) -/
theorem sanitize_claude_only_amended :
    (∀ (cli : String → Except String String) (prompt stdout : String),
      cli prompt = .ok stdout → jsTrim stdout ≠ "" →
      callClaude prompt cli = .ok (sanitizeMessage (jsTrim stdout))) ∧
    sanitizeMessage "```\nfeat: add feature\n```" = "feat: add feature" ∧
    sanitizeMessage "feat: add `console.log` debugging"
      = "feat: add `console.log` debugging" ∧
    (∀ s : String, listHasRun fenceChars s.toList = false →
      sanitizeMessage s = jsTrim s) := by
  refine ⟨fun cli prompt stdout hcli hne => ?_, by decide, by decide, sanitize_fence_free⟩
  unfold callClaude
  rw [hcli]
  dsimp only
  rw [if_neg (by simpa using hne)]

/-- C6 witness: the CLI-path conjunct applied to a concrete call whose
stdout is fenced, and the fence-free conjunct applied to a message with
inline backticks. -/
theorem sanitize_claude_only_amended_witness :
    callClaude "p" (fun _ => .ok "```\nok\n```")
      = .ok (sanitizeMessage (jsTrim "```\nok\n```")) ∧
    sanitizeMessage "inline `code` here" = jsTrim "inline `code` here" :=
  ⟨sanitize_claude_only_amended.1 (fun _ => .ok "```\nok\n```") "p" "```\nok\n```"
      rfl (by decide),
   sanitize_claude_only_amended.2.2.2 "inline `code` here" (by decide)⟩

/-- C6 counterexample: sanitization is not applied to every raw backend
response used for final synthesis.  In the local-inference synthesis
path (generateCommitMessageFromAnalysis of ollama.ts), a backend
response wrapped in a fenced code block is returned still fenced, while
sanitizeMessage would have stripped the fences. -/
theorem ollama_synthesis_unsanitized_cex :
    ollamaGenerateFromAnalysis
      { fileAnalyses := [], overallScope := "misc changes", suggestedCommitType := "chore" }
      (fun _ => .ok "```\nfeat: add feature\n```")
      = .ok "```\nfeat: add feature\n```" ∧
    sanitizeMessage "```\nfeat: add feature\n```" = "feat: add feature" ∧
    ("```\nfeat: add feature\n```" : String) ≠ "feat: add feature" :=
  ⟨rfl, by decide, by decide⟩

end GhHelper
